import Mathlib

/-!
Shallow embedding of `src/mcp_linear/linear_client.py` (class `LinearMCPClient`).

JSON values returned by the remote service and the Python dictionaries the
client builds are modelled by the inductive type `Json`.  Python `dict.get`,
subscription, truthiness and `str.lower` are modelled by `pyGet`, `pyIndex`,
`Json.truthy` and `pyLower`; every Python exception that can arise on the
modelled paths is a constructor of `PyErr`.  The network is modelled by a
state carrying the list of not-yet-consumed remote responses together with
the list of requests sent so far: `execute_query` (the embedding of
`LinearMCPClient._execute_query`) consumes the next response and records the
GraphQL document name and the variables object that were posted.  The GraphQL
document strings themselves are treated as opaque constants (only their
identity and the variables sent with them matter to the properties below).
-/

/-- A JSON value / Python object as manipulated by the client:
`null` is Python `None`, `obj` is a `dict` (association list, insertion
order preserved as in Python), `arr` is a `list`. -/
inductive Json where
  | null : Json
  | bool (b : Bool) : Json
  | num (n : Int) : Json
  | str (s : String) : Json
  | arr (xs : List Json) : Json
  | obj (fields : List (String × Json)) : Json

/-- The Python exceptions reachable on the modelled code paths.
`transportError` stands for the `httpx` exception raised by
`response.raise_for_status()` (or a failed request); `exception` is a bare
`Exception(msg)`; the others are the builtin Python exception types. -/
inductive PyErr where
  | attributeError (m : String)
  | typeError (m : String)
  | keyError (k : String)
  | indexError (m : String)
  | valueError (m : String)
  | transportError (m : String)
  | exception (m : String)

/-- Python `str(e)` for an exception `e` (for `KeyError` Python shows the
missing key between quote characters). -/
def PyErr.msg : PyErr → String
  | .attributeError m => m
  | .typeError m => m
  | .keyError k => "\x27" ++ k ++ "\x27"
  | .indexError m => m
  | .valueError m => m
  | .transportError m => m
  | .exception m => m

/-- Python truthiness of a value (`None`, `""`, `0`, `[]`, `{}`, `False`
are falsy). -/
def Json.truthy : Json → Bool
  | .null => false
  | .bool b => b
  | .num n => n != 0
  | .str s => !s.isEmpty
  | .arr xs => !xs.isEmpty
  | .obj fs => !fs.isEmpty

/-- Python `d.get(k, default)`.  On a `dict` it returns the value bound to
`k` — even when that value is `None` — and the default only when the key is
absent; on any non-`dict` (in particular `None`) attribute lookup of `get`
raises `AttributeError`. -/
def pyGet (j : Json) (k : String) (d : Json) : Except PyErr Json :=
  match j with
  | .obj fs =>
    match fs.lookup k with
    | some v => .ok v
    | none => .ok d
  | _ => .error (.attributeError ("object has no attribute get: " ++ k))

/-- Python `d[k]` for a string key: `KeyError` when the key is absent,
`TypeError` when `d` is not a `dict`. -/
def pyIndex (j : Json) (k : String) : Except PyErr Json :=
  match j with
  | .obj fs =>
    match fs.lookup k with
    | some v => .ok v
    | none => .error (.keyError k)
  | _ => .error (.typeError "object is not subscriptable")

/-- Python `lst[0]`. -/
def pyFirst (j : Json) : Except PyErr Json :=
  match j with
  | .arr [] => .error (.indexError "list index out of range")
  | .arr (x :: _) => .ok x
  | _ => .error (.typeError "object is not subscriptable")

/-- Python iteration (`for x in j`): lists yield their elements, `dict`s
their keys, anything else raises `TypeError`. -/
def pyIter (j : Json) : Except PyErr (List Json) :=
  match j with
  | .arr xs => .ok xs
  | .obj fs => .ok (fs.map (fun f => .str f.1))
  | _ => .error (.typeError "object is not iterable")

/-- Python `s.lower()` on an ASCII string (every name appearing in the
modelled data is ASCII). -/
def pyLowerStr (s : String) : String := String.mk (s.data.map Char.toLower)

/-- Python `s.lower()` as a method lookup: `AttributeError` on a
non-string. -/
def pyLower (j : Json) : Except PyErr String :=
  match j with
  | .str s => .ok (pyLowerStr s)
  | _ => .error (.attributeError "object has no attribute lower")

/-- Python `str(x)` as used in the f-strings of the client; on the modelled
paths it is only applied to scalars. -/
def pyStr : Json → String
  | .null => "None"
  | .bool true => "True"
  | .bool false => "False"
  | .num n => toString n
  | .str s => s
  | .arr _ => "[...]"
  | .obj _ => "\x7b...\x7d"

/-- An `Optional[str]` argument as a JSON value (`None` or the string). -/
def optStr : Option String → Json
  | none => .null
  | some s => .str s

/-- An `Optional[int]` argument as a JSON value. -/
def optInt : Option Int → Json
  | none => .null
  | some n => .num n

/-- Python truthiness of an `Optional[str]` argument (`None` and `""` are
falsy). -/
def optStrTruthy : Option String → Bool
  | none => false
  | some s => !s.isEmpty

/-- Python truthiness of an `Optional[List[str]]` argument (`None` and `[]`
are falsy). -/
def optListTruthy : Option (List String) → Bool
  | none => false
  | some xs => !xs.isEmpty

/-- Python `"-" in s` for the team id/key heuristic, on an `Optional[str]`. -/
def strHasDash : Option String → Bool
  | none => false
  | some s => s.data.contains '-'

/-- A `List[str]` argument as a JSON array of strings. -/
def jsonOfStrList : Option (List String) → Json
  | none => .null
  | some xs => .arr (xs.map Json.str)

/-- Python `x is None`. -/
def jsonIsNull : Json → Bool
  | .null => true
  | _ => false

/-- Python `k in d` on a `dict`: whether `k` occurs among the keys. -/
def Json.hasKey (j : Json) (k : String) : Bool :=
  match j with
  | .obj fs => (fs.lookup k).isSome
  | _ => false

/-- One network request sent by `_execute_query`: the GraphQL document and
the variables object posted with it. -/
structure NetCall where
  gql : String
  vars : Json

/-- The network state threaded through an operation: the remote responses
not yet consumed and the requests sent so far. -/
structure St where
  responses : List Json
  calls : List NetCall

/-- The monad in which the client operations are embedded: explicit state
passing (the network state survives a raised exception, as it does in
Python). -/
abbrev M (α : Type) : Type := St → Except PyErr α × St

instance : Monad M where
  pure a := fun st => (Except.ok a, st)
  bind x f := fun st =>
    match (x st).1 with
    | Except.ok a => f a (x st).2
    | Except.error e => (Except.error e, (x st).2)

/-- Lift a pure (non-networking) Python computation into `M`. -/
def liftE {α : Type} (x : Except PyErr α) : M α := fun st => (x, st)

/-- Python `raise e`. -/
def throwM {α : Type} (e : PyErr) : M α := fun st => (Except.error e, st)

/-- Python `try: x except Exception as e: h e` (every `PyErr` is an
`Exception`). -/
def tryCatchM {α : Type} (x : M α) (h : PyErr → M α) : M α := fun st =>
  match (x st).1 with
  | Except.error e => h e (x st).2
  | Except.ok a => (Except.ok a, (x st).2)

/-- Embedding of `LinearMCPClient._execute_query`: posts the document and
variables (recording the request) and returns the next remote response;
when no response is available the transport fails. -/
def execute_query (gql : String) (vars : Json) : M Json := fun st =>
  match st.responses with
  | [] => (Except.error (.transportError "request failed"), st)
  | r :: rest => (Except.ok r, { responses := rest, calls := st.calls ++ [⟨gql, vars⟩] })

/-- Run an operation against a list of remote responses, starting with an
empty request log. -/
def runOp {α : Type} (op : M α) (responses : List Json) : Except PyErr α × St :=
  op { responses := responses, calls := [] }

/-- The requests an operation sends, given the remote responses. -/
def sentCalls {α : Type} (op : M α) (responses : List Json) : List NetCall :=
  (runOp op responses).2.calls

/-- The value or exception an operation produces, given the remote
responses. -/
def opResult {α : Type} (op : M α) (responses : List Json) : Except PyErr α :=
  (runOp op responses).1

/-! Opaque stand-ins for the GraphQL document strings of the client. -/

def listIssuesQuery : String := "query ListIssues"

def getIssueQuery : String := "query GetIssue"

def statesQuery : String := "query States"

def createIssueMutation : String := "mutation CreateIssue"

def issueTeamQuery : String := "query Issue"

def updateIssueMutation : String := "mutation UpdateIssue"

def teamByKeyQuery : String := "query Team"

def searchIssuesQuery : String := "query SearchIssues"

def userIssuesQuery : String := "query UserIssues"

def viewerIssuesQuery : String := "query ViewerIssues"

def createCommentMutation : String := "mutation CreateComment"

def teamIssuesQuery : String := "query GetTeamIssues"

def viewerQuery : String := "query viewer organization"

def organizationQuery : String := "query organization"

/-- The projection of one issue node in `list_issues` (the element of the
list comprehension). -/
def projectListIssue (issue : Json) : Except PyErr Json := do
  let id ← pyIndex issue "id"
  let title ← pyIndex issue "title"
  let identifier ← pyIndex issue "identifier"
  let priority ← pyGet issue "priority" .null
  let stateJ ← pyGet issue "state" (.obj [])
  let status ← pyGet stateJ "name" .null
  let assigneeJ ← pyGet issue "assignee" (.obj [])
  let assignee ← pyGet assigneeJ "name" .null
  let teamJ ← pyGet issue "team" (.obj [])
  let team ← pyGet teamJ "name" .null
  pure (.obj [
    ("uri", .str ("linear-issue:///" ++ pyStr id)),
    ("mimeType", .str "application/json"),
    ("name", title),
    ("description", .str ("Linear issue " ++ pyStr identifier ++ ": " ++ pyStr title)),
    ("metadata", .obj [
      ("identifier", identifier),
      ("priority", priority),
      ("status", status),
      ("assignee", assignee),
      ("team", team)])])

/-- Embedding of `LinearMCPClient.list_issues`. -/
def list_issues (limit : Int := 50) : M Json := do
  let result ← execute_query listIssuesQuery (.obj [("first", .num limit)])
  liftE (do
    let d ← pyGet result "data" (.obj [])
    let i ← pyGet d "issues" (.obj [])
    let n ← pyGet i "nodes" (.arr [])
    let issues ← pyIter n
    let projected ← issues.mapM projectListIssue
    pure (Json.arr projected))

/-- The projection of the issue returned by `get_issue` (the `return` dict). -/
def projectGetIssue (issue : Json) : Except PyErr Json := do
  let id ← pyIndex issue "id"
  let identifier ← pyIndex issue "identifier"
  let title ← pyIndex issue "title"
  let description ← pyIndex issue "description"
  let priority ← pyGet issue "priority" .null
  let stateJ ← pyGet issue "state" (.obj [])
  let status ← pyGet stateJ "name" .null
  let assigneeJ ← pyGet issue "assignee" (.obj [])
  let assignee ← pyGet assigneeJ "name" .null
  let teamJ ← pyGet issue "team" (.obj [])
  let team ← pyGet teamJ "name" .null
  let url ← pyIndex issue "url"
  pure (.obj [("id", id), ("identifier", identifier), ("title", title),
    ("description", description), ("priority", priority), ("status", status),
    ("assignee", assignee), ("team", team), ("url", url)])

/-- Embedding of `LinearMCPClient.get_issue`. -/
def get_issue (issue_id : String) : M Json := do
  let result ← execute_query getIssueQuery (.obj [("id", .str issue_id)])
  liftE (do
    let d ← pyGet result "data" (.obj [])
    let issue ← pyGet d "issue" (.obj [])
    if !issue.truthy then
      Except.error (.valueError ("Issue " ++ issue_id ++ " not found"))
    else
      projectGetIssue issue)

/-- The `state_result` unpacking shared by `create_issue` and
`update_issue` (`.get("data", \x7b\x7d).get("team", ...).get("states", ...)
.get("nodes", [])` followed by iteration). -/
def extractStates (state_result : Json) : Except PyErr (List Json) := do
  let d ← pyGet state_result "data" (.obj [])
  let t ← pyGet d "team" (.obj [])
  let s ← pyGet t "states" (.obj [])
  let n ← pyGet s "nodes" (.arr [])
  pyIter n

/-- The `for state in states` loop of `create_issue`/`update_issue`:
`state_id` starts as `None` and is set to the id of the first state whose
name matches the requested status case-insensitively. -/
def matchStateId (states : List Json) (status : String) : Except PyErr Json :=
  match states with
  | [] => .ok .null
  | st :: rest => do
    let nm ← pyIndex st "name"
    let low ← pyLower nm
    if low == pyLowerStr status then pyIndex st "id"
    else matchStateId rest status

/-- Status-name resolution against a raw states response: unpack the
workflow-state list, then take the first case-insensitive name match. -/
def resolveStateId (state_result : Json) (status : String) : Except PyErr Json := do
  let states ← extractStates state_result
  matchStateId states status

/-- The projection of the issue returned by `create_issue`. -/
def projectCreatedIssue (issue : Json) : Except PyErr Json := do
  let id ← pyIndex issue "id"
  let identifier ← pyIndex issue "identifier"
  let title ← pyIndex issue "title"
  let description ← pyIndex issue "description"
  let priority ← pyGet issue "priority" .null
  let stateJ ← pyGet issue "state" .null
  let stateName ←
    if stateJ.truthy then do
      let s ← pyIndex issue "state"
      pyIndex s "name"
    else pure Json.null
  let teamJ ← pyIndex issue "team"
  let teamKey ← pyIndex teamJ "key"
  let url ← pyIndex issue "url"
  let createdAt ← pyIndex issue "createdAt"
  pure (.obj [("id", id), ("identifier", identifier), ("title", title),
    ("description", description), ("priority", priority), ("state", stateName),
    ("team", teamKey), ("url", url), ("created_at", createdAt)])

/-- Embedding of `LinearMCPClient.create_issue`.  Note that the mutation
input dict literal carries every key (`title`, `teamId`, `description`,
`priority`, `stateId`), binding the omitted optional arguments to `None`. -/
def create_issue (title : String) (team_id : String)
    (description : Option String := none) (priority : Option Int := none)
    (status : Option String := none) : M (Option Json) := do
  let state_id ←
    if optStrTruthy status then do
      let state_result ← execute_query statesQuery (.obj [("teamId", .str team_id)])
      liftE (resolveStateId state_result (match status with | some s => s | none => ""))
    else pure Json.null
  let vars := Json.obj [("input", Json.obj [
    ("title", .str title), ("teamId", .str team_id),
    ("description", optStr description), ("priority", optInt priority),
    ("stateId", state_id)])]
  let result ← execute_query createIssueMutation vars
  liftE (do
    let d ← pyGet result "data" (.obj [])
    let issue_result ← pyGet d "issueCreate" (.obj [])
    let success ← pyGet issue_result "success" .null
    if !success.truthy then pure none
    else do
      let issue ← pyGet issue_result "issue" (.obj [])
      let r ← projectCreatedIssue issue
      pure (some r))

/-- The team-id unpacking in `update_issue`
(`issue_result.get("data", ...).get("issue", ...).get("team", ...)
.get("id")`). -/
def extractTeamId (issue_result : Json) : Except PyErr Json := do
  let d ← pyGet issue_result "data" (.obj [])
  let i ← pyGet d "issue" (.obj [])
  let t ← pyGet i "team" (.obj [])
  pyGet t "id" .null

/-- The projection of the issue returned by `update_issue`. -/
def projectUpdatedIssue (issue : Json) : Except PyErr Json := do
  let id ← pyIndex issue "id"
  let identifier ← pyIndex issue "identifier"
  let title ← pyIndex issue "title"
  let description ← pyIndex issue "description"
  let priority ← pyGet issue "priority" .null
  let stateJ ← pyGet issue "state" .null
  let stateName ←
    if stateJ.truthy then do
      let s ← pyIndex issue "state"
      pyIndex s "name"
    else pure Json.null
  let teamJ ← pyIndex issue "team"
  let teamKey ← pyIndex teamJ "key"
  let url ← pyIndex issue "url"
  let updatedAt ← pyIndex issue "updatedAt"
  pure (.obj [("id", id), ("identifier", identifier), ("title", title),
    ("description", description), ("priority", priority), ("state", stateName),
    ("team", teamKey), ("url", url), ("updated_at", updatedAt)])

/-- Embedding of `LinearMCPClient.update_issue`.  The update input dict is
built key by key behind `is not None` checks, so only explicitly provided
fields appear in it. -/
def update_issue (issue_id : String)
    (title : Option String := none) (description : Option String := none)
    (priority : Option Int := none) (status : Option String := none) :
    M (Option Json) := do
  let state_id ←
    if optStrTruthy status then do
      let issue_result ← execute_query issueTeamQuery (.obj [("id", .str issue_id)])
      let team_id ← liftE (extractTeamId issue_result)
      if team_id.truthy then do
        let state_result ← execute_query statesQuery (.obj [("teamId", team_id)])
        liftE (resolveStateId state_result (match status with | some s => s | none => ""))
      else pure Json.null
    else pure Json.null
  let update_input : List (String × Json) :=
    (match title with | some t => [("title", Json.str t)] | none => []) ++
    (match description with | some dsc => [("description", Json.str dsc)] | none => []) ++
    (match priority with | some p => [("priority", Json.num p)] | none => []) ++
    (if jsonIsNull state_id then [] else [("stateId", state_id)])
  let vars := Json.obj [("id", .str issue_id), ("input", .obj update_input)]
  let result ← execute_query updateIssueMutation vars
  liftE (do
    let d ← pyGet result "data" (.obj [])
    let issue_result ← pyGet d "issueUpdate" (.obj [])
    let success ← pyGet issue_result "success" .null
    if !success.truthy then pure none
    else do
      let issue ← pyGet issue_result "issue" (.obj [])
      let r ← projectUpdatedIssue issue
      pure (some r))

/-- The projection of one issue node in `search_issues`. -/
def projectSearchIssue (issue : Json) : Except PyErr Json := do
  let id ← pyIndex issue "id"
  let identifier ← pyIndex issue "identifier"
  let title ← pyIndex issue "title"
  let description ← pyGet issue "description" .null
  let priority ← pyGet issue "priority" .null
  let stateJ ← pyGet issue "state" (.obj [])
  let stateName ← pyGet stateJ "name" .null
  let assigneeJ ← pyGet issue "assignee" .null
  let assignee ←
    if assigneeJ.truthy then do
      let a ← pyIndex issue "assignee"
      let aid ← pyIndex a "id"
      let an ← pyIndex a "name"
      pure (Json.obj [("id", aid), ("name", an)])
    else pure Json.null
  let teamJ ← pyGet issue "team" .null
  let team ←
    if teamJ.truthy then do
      let t ← pyIndex issue "team"
      let tid ← pyIndex t "id"
      let tk ← pyIndex t "key"
      pure (Json.obj [("id", tid), ("key", tk)])
    else pure Json.null
  let labelsJ ← pyGet issue "labels" .null
  let labels ←
    if labelsJ.truthy then do
      let lj ← pyGet issue "labels" (.obj [])
      let nodes ← pyGet lj "nodes" (.arr [])
      let ns ← pyIter nodes
      let names ← ns.mapM (fun l => pyIndex l "name")
      pure (Json.arr names)
    else pure (Json.arr [])
  let url ← pyIndex issue "url"
  let createdAt ← pyIndex issue "createdAt"
  pure (.obj [("id", id), ("identifier", identifier), ("title", title),
    ("description", description), ("priority", priority), ("state", stateName),
    ("assignee", assignee), ("team", team), ("labels", labels),
    ("url", url), ("created_at", createdAt)])

/-- The resolved-team unpacking of `search_issues`: when the by-key lookup
response holds a truthy team object, its `id` replaces the given
identifier. -/
def resolveTeamFromLookup (team_result : Json) (team_id : Option String) :
    Except PyErr Json := do
  let d ← pyGet team_result "data" (.obj [])
  let team_data ← pyGet d "team" (.obj [])
  if team_data.truthy then pyGet team_data "id" .null
  else pure (optStr team_id)

/-- The `filter_conditions` dict of `search_issues`: one condition per
truthy argument, in source order (`priority` is gated by `is not None`). -/
def searchFilter (query : Option String) (tid : Json) (status : Option String)
    (assignee_id : Option String) (labels : Option (List String))
    (priority : Option Int) : List (String × Json) :=
  (if optStrTruthy query then
    [("or", Json.arr [
      Json.obj [("title", Json.obj [("contains", optStr query)])],
      Json.obj [("description", Json.obj [("contains", optStr query)])]])]
   else []) ++
  (if tid.truthy then [("team", Json.obj [("id", Json.obj [("eq", tid)])])] else []) ++
  (if optStrTruthy status then
    [("state", Json.obj [("name", Json.obj [("eq", optStr status)])])] else []) ++
  (if optStrTruthy assignee_id then
    [("assignee", Json.obj [("id", Json.obj [("eq", optStr assignee_id)])])] else []) ++
  (if optListTruthy labels then
    [("labels", Json.obj [("some", Json.obj [("name",
      Json.obj [("in", jsonOfStrList labels)])])])] else []) ++
  (if priority.isSome then [("priority", Json.obj [("eq", optInt priority)])] else [])

/-- The body of the `try` block of `search_issues` after the response is
received: raise a bare `Exception` with the first remote error message
(default `Unknown error`) when the response has no truthy `data`, else
project the issue nodes. -/
def searchResponseBody (result : Json) : Except PyErr Json := do
  let data ← pyGet result "data" (.obj [])
  if !data.truthy then do
    let errs ← pyGet result "errors" (.arr [Json.obj []])
    let first ← pyFirst errs
    let msg ← pyGet first "message" (.str "Unknown error")
    Except.error (.exception (pyStr msg))
  else do
    let issuesJ ← pyGet data "issues" (.obj [])
    let nodes ← pyGet issuesJ "nodes" (.arr [])
    let issues ← pyIter nodes
    let projected ← issues.mapM projectSearchIssue
    pure (Json.arr projected)

/-- Embedding of `LinearMCPClient.search_issues`.  The team identifier is
looked up by key first when it is truthy and contains no dash; the whole
query/projection is wrapped in `try/except Exception`, re-raised as a bare
`Exception` with a `Search failed: ` prefix on the original message. -/
def search_issues (query : Option String := none) (team_id : Option String := none)
    (status : Option String := none) (assignee_id : Option String := none)
    (labels : Option (List String) := none) (priority : Option Int := none)
    (limit : Int := 10) : M Json := do
  let tid : Json ←
    if optStrTruthy team_id && !(strHasDash team_id) then do
      let team_result ← execute_query teamByKeyQuery (.obj [("key", optStr team_id)])
      liftE (resolveTeamFromLookup team_result team_id)
    else pure (optStr team_id)
  let vars := Json.obj [("first", .num limit),
    ("filter", .obj (searchFilter query tid status assignee_id labels priority))]
  tryCatchM (do
    let result ← execute_query searchIssuesQuery vars
    liftE (searchResponseBody result))
    (fun e => throwM (.exception ("Search failed: " ++ e.msg)))

/-- The projection of one issue node in `get_user_issues`. -/
def projectUserIssue (issue : Json) : Except PyErr Json := do
  let id ← pyIndex issue "id"
  let identifier ← pyIndex issue "identifier"
  let title ← pyIndex issue "title"
  let description ← pyGet issue "description" .null
  let priority ← pyGet issue "priority" .null
  let stateJ ← pyGet issue "state" .null
  let stateName ←
    if stateJ.truthy then do
      let s ← pyIndex issue "state"
      pyIndex s "name"
    else pure Json.null
  let teamJ ← pyIndex issue "team"
  let teamKey ← pyIndex teamJ "key"
  let url ← pyIndex issue "url"
  let createdAt ← pyIndex issue "createdAt"
  let archivedAt ← pyGet issue "archivedAt" .null
  pure (.obj [("id", id), ("identifier", identifier), ("title", title),
    ("description", description), ("priority", priority), ("state", stateName),
    ("team", teamKey), ("url", url), ("created_at", createdAt),
    ("archived_at", archivedAt)])

/-- Embedding of `LinearMCPClient.get_user_issues`: one query targeting
either the explicit user (when `user_id` is truthy) or the viewer. -/
def get_user_issues (user_id : Option String := none)
    (include_archived : Bool := false) (limit : Int := 50) : M Json := do
  let issues ←
    if optStrTruthy user_id then do
      let result ← execute_query userIssuesQuery (.obj [
        ("userId", optStr user_id), ("first", .num limit),
        ("includeArchived", .bool include_archived)])
      liftE (do
        let d ← pyGet result "data" (.obj [])
        let u ← pyGet d "user" (.obj [])
        let a ← pyGet u "assignedIssues" (.obj [])
        let n ← pyGet a "nodes" (.arr [])
        pyIter n)
    else do
      let result ← execute_query viewerIssuesQuery (.obj [
        ("first", .num limit), ("includeArchived", .bool include_archived)])
      liftE (do
        let d ← pyGet result "data" (.obj [])
        let v ← pyGet d "viewer" (.obj [])
        let a ← pyGet v "assignedIssues" (.obj [])
        let n ← pyGet a "nodes" (.arr [])
        pyIter n)
  liftE (do
    let projected ← issues.mapM projectUserIssue
    pure (Json.arr projected))

/-- Embedding of `LinearMCPClient.add_comment`: the comment input always
carries `issueId` and `body`; the attribution fields are appended only when
truthy. -/
def add_comment (issue_id : String) (body : String)
    (create_as_user : Option String := none)
    (display_icon_url : Option String := none) : M (Option Json) := do
  let input : List (String × Json) :=
    [("issueId", .str issue_id), ("body", .str body)] ++
    (if optStrTruthy create_as_user then [("createAsUser", optStr create_as_user)] else []) ++
    (if optStrTruthy display_icon_url then [("displayIconUrl", optStr display_icon_url)] else [])
  let vars := Json.obj [("input", Json.obj input)]
  let result ← execute_query createCommentMutation vars
  liftE (do
    let d ← pyGet result "data" (.obj [])
    let comment_result ← pyGet d "commentCreate" (.obj [])
    let success ← pyGet comment_result "success" .null
    if !success.truthy then pure none
    else do
      let comment ← pyGet comment_result "comment" (.obj [])
      let id ← pyIndex comment "id"
      let b ← pyIndex comment "body"
      let userJ ← pyGet comment "user" .null
      let userName ←
        if userJ.truthy then do
          let u ← pyIndex comment "user"
          pyIndex u "name"
        else pure Json.null
      let createdAt ← pyIndex comment "createdAt"
      pure (some (Json.obj [("id", id), ("body", b), ("user", userName),
        ("created_at", createdAt)])))

/-- The projection of one issue node in `get_team_issues`. -/
def projectTeamIssue (issue : Json) : Except PyErr Json := do
  let id ← pyIndex issue "id"
  let identifier ← pyIndex issue "identifier"
  let title ← pyIndex issue "title"
  let description ← pyGet issue "description" .null
  let priority ← pyGet issue "priority" .null
  let stateJ ← pyGet issue "state" (.obj [])
  let status ← pyGet stateJ "name" .null
  let assigneeJ ← pyGet issue "assignee" (.obj [])
  let assignee ← pyGet assigneeJ "name" .null
  let url ← pyIndex issue "url"
  pure (.obj [("id", id), ("identifier", identifier), ("title", title),
    ("description", description), ("priority", priority), ("status", status),
    ("assignee", assignee), ("url", url)])

/-- Embedding of `LinearMCPClient.get_team_issues`: raises `ValueError`
when `result.get("data", ...).get("team")` is falsy, otherwise projects the
team's issue nodes. -/
def get_team_issues (team_id : String) : M Json := do
  let result ← execute_query teamIssuesQuery (.obj [("teamId", .str team_id)])
  liftE (do
    let d ← pyGet result "data" (.obj [])
    let team ← pyGet d "team" .null
    if !team.truthy then
      Except.error (.valueError ("Team " ++ team_id ++ " not found"))
    else do
      let d2 ← pyGet result "data" (.obj [])
      let t2 ← pyGet d2 "team" (.obj [])
      let iss ← pyGet t2 "issues" (.obj [])
      let nodes ← pyGet iss "nodes" (.arr [])
      let issues ← pyIter nodes
      let projected ← issues.mapM projectTeamIssue
      pure (Json.arr projected))

/-- Embedding of `LinearMCPClient.get_viewer`: one query, then projection of
the viewer and organization objects. -/
def get_viewer : M Json := do
  let result ← execute_query viewerQuery (.obj [])
  liftE (do
    let d ← pyGet result "data" (.obj [])
    let viewer ← pyGet d "viewer" (.obj [])
    let d2 ← pyGet result "data" (.obj [])
    let organization ← pyGet d2 "organization" (.obj [])
    let id ← pyIndex viewer "id"
    let name ← pyIndex viewer "name"
    let email ← pyGet viewer "email" .null
    let admin ← pyGet viewer "admin" .null
    let teamsJ ← pyGet viewer "teams" (.obj [])
    let tn ← pyGet teamsJ "nodes" (.arr [])
    let tlist ← pyIter tn
    let teams ← tlist.mapM (fun t => do
      let tid ← pyIndex t "id"
      let tname ← pyIndex t "name"
      let tkey ← pyIndex t "key"
      pure (Json.obj [("id", tid), ("name", tname), ("key", tkey)]))
    let oid ← pyIndex organization "id"
    let oname ← pyIndex organization "name"
    let ourl ← pyIndex organization "urlKey"
    pure (Json.obj [("id", id), ("name", name), ("email", email),
      ("admin", admin), ("teams", Json.arr teams),
      ("organization", Json.obj [("id", oid), ("name", oname), ("urlKey", ourl)])]))

/-- Embedding of `LinearMCPClient.get_organization`: one query, then
projection of the organization with its team and user lists. -/
def get_organization : M Json := do
  let result ← execute_query organizationQuery (.obj [])
  liftE (do
    let d ← pyGet result "data" (.obj [])
    let organization ← pyGet d "organization" (.obj [])
    let id ← pyIndex organization "id"
    let name ← pyIndex organization "name"
    let urlKey ← pyIndex organization "urlKey"
    let teamsJ ← pyGet organization "teams" (.obj [])
    let tn ← pyGet teamsJ "nodes" (.arr [])
    let tlist ← pyIter tn
    let teams ← tlist.mapM (fun t => do
      let tid ← pyIndex t "id"
      let tname ← pyIndex t "name"
      let tkey ← pyIndex t "key"
      pure (Json.obj [("id", tid), ("name", tname), ("key", tkey)]))
    let usersJ ← pyGet organization "users" (.obj [])
    let un ← pyGet usersJ "nodes" (.arr [])
    let ulist ← pyIter un
    let users ← ulist.mapM (fun u => do
      let uid ← pyIndex u "id"
      let uname ← pyIndex u "name"
      let uemail ← pyGet u "email" .null
      let uadmin ← pyGet u "admin" .null
      let uactive ← pyGet u "active" .null
      pure (Json.obj [("id", uid), ("name", uname), ("email", uemail),
        ("admin", uadmin), ("active", uactive)]))
    pure (Json.obj [("id", id), ("name", name), ("urlKey", urlKey),
      ("teams", Json.arr teams), ("users", Json.arr users)]))

/-! Concrete remote responses used by several of the theorems below. -/

/-- A workflow-states response for a team whose states are
`[{id: s1, name: Todo}, {id: s2, name: In Progress}]`, in remote-returned
order. -/
def statesTodoInProgress : Json :=
  Json.obj [("data", Json.obj [("team", Json.obj [("states", Json.obj [("nodes",
    Json.arr [Json.obj [("id", Json.str "s1"), ("name", Json.str "Todo")],
              Json.obj [("id", Json.str "s2"), ("name", Json.str "In Progress")]])])])])]

/-- A response to the issue-team query of `update_issue` placing the issue
in team `TEAM-1`. -/
def issueTeamResp : Json :=
  Json.obj [("data", Json.obj [("issue", Json.obj [("team",
    Json.obj [("id", Json.str "TEAM-1")])])])]

/-- A search response with an empty issue list. -/
def searchEmptyResp : Json :=
  Json.obj [("data", Json.obj [("issues", Json.obj [("nodes", Json.arr [])])])]

/-! Helper lemmas exposing how the monad's combinators act on a state; all
are definitional. -/

theorem bind_app {α β : Type} (x : M α) (f : α → M β) (st : St) :
    (x >>= f) st = match (x st).1 with
      | Except.ok a => f a (x st).2
      | Except.error e => (Except.error e, (x st).2) := rfl

theorem liftE_app {α : Type} (x : Except PyErr α) (st : St) : liftE x st = (x, st) := rfl

theorem pure_app {α : Type} (a : α) (st : St) : (pure a : M α) st = (Except.ok a, st) := rfl

theorem if_true_eq {α : Type} (a b : α) : (if true = true then a else b) = a := rfl

theorem if_false_eq {α : Type} (a b : α) : (if false = true then a else b) = b := rfl

/-- Claim C1, counterexample: a create-issue call that provides no
description still sends an input object whose keys include `description`
(and `priority` and `stateId`), each bound to null — an omitted field does
appear as a key, contradicting the claim. -/
theorem create_input_lists_omitted_fields :
    sentCalls (create_issue "T" "TEAM-1" none none none) [Json.obj []] =
      [⟨createIssueMutation, Json.obj [("input", Json.obj [
        ("title", Json.str "T"), ("teamId", Json.str "TEAM-1"),
        ("description", Json.null), ("priority", Json.null),
        ("stateId", Json.null)])]⟩] ∧
    (Json.obj [("title", Json.str "T"), ("teamId", Json.str "TEAM-1"),
      ("description", Json.null), ("priority", Json.null),
      ("stateId", Json.null)]).hasKey "description" = true ∧
    (Json.obj [("title", Json.str "T"), ("teamId", Json.str "TEAM-1"),
      ("description", Json.null), ("priority", Json.null),
      ("stateId", Json.null)]).hasKey "priority" = true :=
  ⟨rfl, rfl, rfl⟩

/-- Claim C1, amended: for every create-issue call the mutation input
object contains exactly the keys `title`, `teamId`, `description`,
`priority` and `stateId`, in that order; provided fields carry their
values, omitted optional fields are bound to null, and `stateId` carries
the resolved state id when a status was given and resolved (null
otherwise). -/
theorem create_input_always_carries_all_keys :
    (∀ (title team_id : String) (description : Option String)
        (priority : Option Int) (r : Json),
      sentCalls (create_issue title team_id description priority none) [r] =
        [⟨createIssueMutation, Json.obj [("input", Json.obj [
          ("title", Json.str title), ("teamId", Json.str team_id),
          ("description", optStr description), ("priority", optInt priority),
          ("stateId", Json.null)])]⟩]) ∧
    sentCalls (create_issue "Fix login bug" "TEAM-1" none none (some "In Progress"))
        [statesTodoInProgress, Json.obj []] =
      [⟨statesQuery, Json.obj [("teamId", Json.str "TEAM-1")]⟩,
       ⟨createIssueMutation, Json.obj [("input", Json.obj [
         ("title", Json.str "Fix login bug"), ("teamId", Json.str "TEAM-1"),
         ("description", Json.null), ("priority", Json.null),
         ("stateId", Json.str "s2")])]⟩] :=
  ⟨fun _ _ _ _ _ => rfl, rfl⟩

/-- Claim C2: inclusion of `title`, `description` and `priority` in the
update-input object is gated by presence (`is not None`), not truthiness,
for every combination of provided and omitted fields: an omitted field
never appears as a key, a provided field — including an empty-string title
and the falsy `priority = 0` — always appears, and a call providing only
`priority = 2` sends the input object exactly `priority: 2` with no other
keys.  The closing conjunct characterises the input object for all update
calls without a status: each of the three keys is present exactly when the
corresponding argument is, in source order. -/
theorem update_input_presence_gated :
    (∀ (iid : String) (r : Json),
      sentCalls (update_issue iid none none none none) [r] =
        [⟨updateIssueMutation, Json.obj [("id", Json.str iid),
          ("input", Json.obj [])]⟩]) ∧
    (∀ (iid t : String) (r : Json),
      sentCalls (update_issue iid (some t) none none none) [r] =
        [⟨updateIssueMutation, Json.obj [("id", Json.str iid),
          ("input", Json.obj [("title", Json.str t)])]⟩]) ∧
    (∀ (iid : String) (r : Json),
      sentCalls (update_issue iid (some "") none none none) [r] =
        [⟨updateIssueMutation, Json.obj [("id", Json.str iid),
          ("input", Json.obj [("title", Json.str "")])]⟩]) ∧
    (∀ (iid d : String) (r : Json),
      sentCalls (update_issue iid none (some d) none none) [r] =
        [⟨updateIssueMutation, Json.obj [("id", Json.str iid),
          ("input", Json.obj [("description", Json.str d)])]⟩]) ∧
    (∀ (r : Json),
      sentCalls (update_issue "I-1" none none (some 2) none) [r] =
        [⟨updateIssueMutation, Json.obj [("id", Json.str "I-1"),
          ("input", Json.obj [("priority", Json.num 2)])]⟩]) ∧
    (∀ (iid : String) (p : Int) (r : Json),
      sentCalls (update_issue iid none none (some p) none) [r] =
        [⟨updateIssueMutation, Json.obj [("id", Json.str iid),
          ("input", Json.obj [("priority", Json.num p)])]⟩]) ∧
    (∀ (iid : String) (r : Json),
      sentCalls (update_issue iid (some "") none (some 0) none) [r] =
        [⟨updateIssueMutation, Json.obj [("id", Json.str iid),
          ("input", Json.obj [("title", Json.str ""),
            ("priority", Json.num 0)])]⟩]) ∧
    (∀ (iid t d : String) (p : Int) (r : Json),
      sentCalls (update_issue iid (some t) (some d) (some p) none) [r] =
        [⟨updateIssueMutation, Json.obj [("id", Json.str iid),
          ("input", Json.obj [("title", Json.str t),
            ("description", Json.str d), ("priority", Json.num p)])]⟩]) ∧
    (∀ (iid : String) (t d : Option String) (p : Option Int) (r : Json),
      sentCalls (update_issue iid t d p none) [r] =
        [⟨updateIssueMutation, Json.obj [("id", Json.str iid),
          ("input", Json.obj (
            (match t with | some v => [("title", Json.str v)] | none => []) ++
            (match d with | some v => [("description", Json.str v)] | none => []) ++
            (match p with | some v => [("priority", Json.num v)] | none => [])))]⟩]) := by
  refine ⟨fun _ _ => rfl, fun _ _ _ => rfl, fun _ _ => rfl, fun _ _ _ => rfl,
    fun _ => rfl, fun _ _ _ => rfl, fun _ _ => rfl, fun _ _ _ _ _ => rfl, ?_⟩
  intro iid t d p r
  cases t <;> cases d <;> cases p <;> rfl

/-- Claim C3: status-name resolution returns the id of the first workflow
state whose name matches the requested status case-insensitively, scanning
the remote-returned order; with states `[s1 Todo, s2 In Progress]` a create
with status `In Progress` sends `stateId = s2` (an update with status
`IN PROGRESS` likewise); and when no state matches, no state id is resolved,
the operation proceeds without error, and the mutation carries no state id
(null in the create input, no `stateId` key in the update input). -/
theorem status_resolution_first_case_insensitive :
    (sentCalls (create_issue "Fix login bug" "TEAM-1" none none (some "In Progress"))
        [statesTodoInProgress, Json.obj []] =
      [⟨statesQuery, Json.obj [("teamId", Json.str "TEAM-1")]⟩,
       ⟨createIssueMutation, Json.obj [("input", Json.obj [
         ("title", Json.str "Fix login bug"), ("teamId", Json.str "TEAM-1"),
         ("description", Json.null), ("priority", Json.null),
         ("stateId", Json.str "s2")])]⟩]) ∧
    (sentCalls (update_issue "I-1" none none none (some "IN PROGRESS"))
        [issueTeamResp, statesTodoInProgress, Json.obj []] =
      [⟨issueTeamQuery, Json.obj [("id", Json.str "I-1")]⟩,
       ⟨statesQuery, Json.obj [("teamId", Json.str "TEAM-1")]⟩,
       ⟨updateIssueMutation, Json.obj [("id", Json.str "I-1"),
         ("input", Json.obj [("stateId", Json.str "s2")])]⟩]) ∧
    (∀ (sid nm : String) (rest : List Json) (s : String),
      pyLowerStr nm = pyLowerStr s →
      matchStateId (Json.obj [("id", Json.str sid), ("name", Json.str nm)] :: rest) s =
        Except.ok (Json.str sid)) ∧
    (∀ (sid nm : String) (rest : List Json) (s : String),
      pyLowerStr nm ≠ pyLowerStr s →
      matchStateId (Json.obj [("id", Json.str sid), ("name", Json.str nm)] :: rest) s =
        matchStateId rest s) ∧
    (opResult (create_issue "Fix login bug" "TEAM-1" none none (some "Done"))
        [statesTodoInProgress,
         Json.obj [("data", Json.obj [("issueCreate",
           Json.obj [("success", Json.bool false)])])]] = Except.ok none ∧
     sentCalls (create_issue "Fix login bug" "TEAM-1" none none (some "Done"))
        [statesTodoInProgress, Json.obj []] =
      [⟨statesQuery, Json.obj [("teamId", Json.str "TEAM-1")]⟩,
       ⟨createIssueMutation, Json.obj [("input", Json.obj [
         ("title", Json.str "Fix login bug"), ("teamId", Json.str "TEAM-1"),
         ("description", Json.null), ("priority", Json.null),
         ("stateId", Json.null)])]⟩]) ∧
    (opResult (update_issue "I-1" none none none (some "Done"))
        [issueTeamResp, statesTodoInProgress,
         Json.obj [("data", Json.obj [("issueUpdate",
           Json.obj [("success", Json.bool false)])])]] = Except.ok none ∧
     sentCalls (update_issue "I-1" none none none (some "Done"))
        [issueTeamResp, statesTodoInProgress, Json.obj []] =
      [⟨issueTeamQuery, Json.obj [("id", Json.str "I-1")]⟩,
       ⟨statesQuery, Json.obj [("teamId", Json.str "TEAM-1")]⟩,
       ⟨updateIssueMutation, Json.obj [("id", Json.str "I-1"),
         ("input", Json.obj [])]⟩]) := by
  refine ⟨rfl, rfl, ?_, ?_, ⟨rfl, rfl⟩, ⟨rfl, rfl⟩⟩
  · intro sid nm rest s h
    show (if (pyLowerStr nm == pyLowerStr s) = true then Except.ok (Json.str sid)
      else matchStateId rest s) = Except.ok (Json.str sid)
    rw [h]
    simp
  · intro sid nm rest s h
    show (if (pyLowerStr nm == pyLowerStr s) = true then Except.ok (Json.str sid)
      else matchStateId rest s) = matchStateId rest s
    simp [h]

/-- Witness for claim C3: the general first-match parts instantiated on a
team with two states both matching `DONE` case-insensitively (the first
wins) and on a non-matching head state (skipped). -/
theorem status_resolution_first_case_insensitive_witness :
    matchStateId [Json.obj [("id", Json.str "sA"), ("name", Json.str "Done")],
      Json.obj [("id", Json.str "sB"), ("name", Json.str "done")]] "DONE" =
      Except.ok (Json.str "sA") ∧
    matchStateId [Json.obj [("id", Json.str "sC"), ("name", Json.str "Todo")],
      Json.obj [("id", Json.str "sD"), ("name", Json.str "done")]] "DONE" =
      Except.ok (Json.str "sD") := by
  constructor
  · exact status_resolution_first_case_insensitive.2.2.1 "sA" "Done"
      [Json.obj [("id", Json.str "sB"), ("name", Json.str "done")]] "DONE" (by decide)
  · rw [status_resolution_first_case_insensitive.2.2.2.1 "sC" "Todo"
      [Json.obj [("id", Json.str "sD"), ("name", Json.str "done")]] "DONE" (by decide)]
    exact status_resolution_first_case_insensitive.2.2.1 "sD" "done" [] "DONE" (by decide)

/-- Claim C4, counterexample: on a search response with no `data` and a
remote error message `boom`, the raised failure carries the message
`Search failed: boom` — the remote message is prefixed, not passed through
verbatim as the claim states. -/
theorem search_error_message_prefixed_counterexample :
    opResult (search_issues none none none none none none 10)
      [Json.obj [("errors", Json.arr [Json.obj [("message", Json.str "boom")]])]] =
      Except.error (PyErr.exception "Search failed: boom") ∧
    "Search failed: boom" ≠ "boom" :=
  ⟨rfl, by decide⟩

/-- Claim C4, amended: a search-issues call whose remote response contains
no `data` payload fails with an exception whose message is the first
reported remote error message prefixed by `Search failed: ` (with the
generic `Unknown error` as fallback when no error message is present); it
does not silently return an empty result list. -/
theorem search_no_data_fails_with_prefixed_message :
    (∀ (m : String),
      opResult (search_issues none none none none none none 10)
        [Json.obj [("errors", Json.arr [Json.obj [("message", Json.str m)]])]] =
        Except.error (PyErr.exception ("Search failed: " ++ m))) ∧
    opResult (search_issues none none none none none none 10)
      [Json.obj [("errors", Json.arr [Json.obj []])]] =
      Except.error (PyErr.exception "Search failed: Unknown error") ∧
    opResult (search_issues none none none none none none 10) [Json.obj []] =
      Except.error (PyErr.exception "Search failed: Unknown error") :=
  ⟨fun _ => rfl, rfl, rfl⟩

/-- Claim C5: when the remote reports `success: false` — or carries no
`success` field at all — each mutation operation returns the sentinel
no-entity result (`None`) and raises no exception; an exception on these
paths can only come from the transport itself. -/
theorem mutation_failure_yields_none :
    (∀ (t tid : String),
      opResult (create_issue t tid none none none)
        [Json.obj [("data", Json.obj [("issueCreate",
          Json.obj [("success", Json.bool false)])])]] = Except.ok none) ∧
    (∀ (t tid : String),
      opResult (create_issue t tid none none none)
        [Json.obj [("data", Json.obj [("issueCreate", Json.obj [])])]] =
        Except.ok none) ∧
    (∀ (iid : String),
      opResult (update_issue iid none none none none)
        [Json.obj [("data", Json.obj [("issueUpdate",
          Json.obj [("success", Json.bool false)])])]] = Except.ok none) ∧
    (∀ (iid : String),
      opResult (update_issue iid none none none none) [Json.obj []] =
        Except.ok none) ∧
    (∀ (iid bd : String),
      opResult (add_comment iid bd none none)
        [Json.obj [("data", Json.obj [("commentCreate",
          Json.obj [("success", Json.bool false)])])]] = Except.ok none) ∧
    (∀ (iid bd : String),
      opResult (add_comment iid bd none none)
        [Json.obj [("data", Json.obj [("commentCreate", Json.obj [])])]] =
        Except.ok none) ∧
    (∀ (t tid : String),
      opResult (create_issue t tid none none none) [] =
        Except.error (PyErr.transportError "request failed")) :=
  ⟨fun _ _ => rfl, fun _ _ => rfl, fun _ => rfl, fun _ => rfl,
   fun _ _ => rfl, fun _ _ => rfl, fun _ _ => rfl⟩

/-- Claim C6: a search-issues call whose team identifier contains no dash
issues a team-by-key lookup first, and when the lookup returns a team the
search filter's `team.id.eq` is the resolved id, not the literal key; a
team identifier containing a dash is used directly with no lookup. -/
theorem team_key_lookup_before_search :
    (sentCalls (search_issues none (some "OPS") none none none none 10)
        [Json.obj [("data", Json.obj [("team", Json.obj [("id", Json.str "team-123")])])],
         searchEmptyResp] =
      [⟨teamByKeyQuery, Json.obj [("key", Json.str "OPS")]⟩,
       ⟨searchIssuesQuery, Json.obj [("first", Json.num 10), ("filter", Json.obj
         [("team", Json.obj [("id", Json.obj [("eq", Json.str "team-123")])])])]⟩]) ∧
    (∀ (t : String), t.isEmpty = false → t.data.contains '-' = true →
      sentCalls (search_issues none (some t) none none none none 10) [searchEmptyResp] =
        [⟨searchIssuesQuery, Json.obj [("first", Json.num 10), ("filter", Json.obj
          [("team", Json.obj [("id", Json.obj [("eq", Json.str t)])])])]⟩]) := by
  refine ⟨rfl, ?_⟩
  intro t h1 h2
  have hf : searchFilter none (Json.str t) none none none none =
      [("team", Json.obj [("id", Json.obj [("eq", Json.str t)])])] := by
    simp only [searchFilter, optStrTruthy, optListTruthy, Json.truthy, h1,
      Option.isSome, Bool.not_false, if_true_eq, if_false_eq]
    rfl
  simp only [sentCalls, runOp, search_issues, bind_app, liftE_app, pure_app,
    execute_query, tryCatchM, optStrTruthy, optStr, strHasDash, h1, h2, hf,
    Bool.not_false, Bool.not_true, Bool.and_false, Bool.true_and, Bool.false_and,
    if_true_eq, if_false_eq]
  rfl

/-- Witness for claim C6: the dash-containing branch instantiated at the
identifier `abc-def`. -/
theorem team_key_lookup_before_search_witness :
    sentCalls (search_issues none (some "abc-def") none none none none 10)
        [searchEmptyResp] =
      [⟨searchIssuesQuery, Json.obj [("first", Json.num 10), ("filter", Json.obj
        [("team", Json.obj [("id", Json.obj [("eq", Json.str "abc-def")])])])]⟩] :=
  team_key_lookup_before_search.2 "abc-def" (by decide) (by decide)

/-- Claim C7: a get-issue call whose response holds no issue (absent or
null) raises `ValueError` — the NotFoundError of the spec — with the
requested identifier in the message, and a team-issue listing whose
response holds no team does likewise; neither returns a projected record
or an empty list on absence. -/
theorem by_id_absence_raises_not_found :
    (∀ (iid : String),
      opResult (get_issue iid) [Json.obj [("data", Json.obj [])]] =
        Except.error (PyErr.valueError ("Issue " ++ iid ++ " not found"))) ∧
    (∀ (iid : String),
      opResult (get_issue iid) [Json.obj [("data", Json.obj [("issue", Json.null)])]] =
        Except.error (PyErr.valueError ("Issue " ++ iid ++ " not found"))) ∧
    (∀ (tid : String),
      opResult (get_team_issues tid) [Json.obj [("data", Json.obj [])]] =
        Except.error (PyErr.valueError ("Team " ++ tid ++ " not found"))) ∧
    (∀ (tid : String),
      opResult (get_team_issues tid) [Json.obj [("data", Json.obj [("team", Json.null)])]] =
        Except.error (PyErr.valueError ("Team " ++ tid ++ " not found"))) :=
  ⟨fun _ => rfl, fun _ => rfl, fun _ => rfl, fun _ => rfl⟩

/-- Claim C8, counterexample: an update-issue call with a status makes
three query-execution invocations — the issue-team lookup, the
workflow-states lookup and the mutation — exceeding the claimed bound of
two. -/
theorem update_with_status_three_calls :
    (sentCalls (update_issue "I-1" none none none (some "In Progress"))
      [issueTeamResp, statesTodoInProgress, Json.obj []]).length = 3 := rfl

/-- Claim C8, amended: every facade operation makes at most two
query-execution invocations per call except update-issue, which makes at
most three (issue-team lookup, workflow-states lookup, mutation) when a
status is given; the single-query operations make at most one. -/
theorem round_trip_upper_bounds :
    (∀ (lim : Int) (rs : List Json), (sentCalls (list_issues lim) rs).length ≤ 1) ∧
    (∀ (iid : String) (rs : List Json), (sentCalls (get_issue iid) rs).length ≤ 1) ∧
    (∀ (t tid : String) (d : Option String) (p : Option Int) (s : Option String)
        (rs : List Json), (sentCalls (create_issue t tid d p s) rs).length ≤ 2) ∧
    (∀ (iid : String) (t d : Option String) (p : Option Int) (s : Option String)
        (rs : List Json), (sentCalls (update_issue iid t d p s) rs).length ≤ 3) ∧
    (∀ (q tid stt asg : Option String) (lb : Option (List String)) (p : Option Int)
        (lim : Int) (rs : List Json),
      (sentCalls (search_issues q tid stt asg lb p lim) rs).length ≤ 2) ∧
    (∀ (uid : Option String) (ia : Bool) (lim : Int) (rs : List Json),
      (sentCalls (get_user_issues uid ia lim) rs).length ≤ 1) ∧
    (∀ (iid bd : String) (cu du : Option String) (rs : List Json),
      (sentCalls (add_comment iid bd cu du) rs).length ≤ 1) ∧
    (∀ (tid : String) (rs : List Json),
      (sentCalls (get_team_issues tid) rs).length ≤ 1) ∧
    (∀ (rs : List Json), (sentCalls get_viewer rs).length ≤ 1) ∧
    (∀ (rs : List Json), (sentCalls get_organization rs).length ≤ 1) := by
  refine ⟨?_, ?_, ?_, ?_, ?_, ?_, ?_, ?_, ?_, ?_⟩
  · intro lim rs
    simp only [sentCalls, runOp, list_issues, bind_app, liftE_app, pure_app,
      execute_query]
    repeat' (first
      | split
      | simp only [bind_app, liftE_app, pure_app, execute_query])
    all_goals (first | exact Nat.le.refl | exact Nat.zero_le _)
  · intro iid rs
    simp only [sentCalls, runOp, get_issue, bind_app, liftE_app, pure_app,
      execute_query]
    repeat' (first
      | split
      | simp only [bind_app, liftE_app, pure_app, execute_query])
    all_goals (first | exact Nat.le.refl | exact Nat.zero_le _)
  · intro t tid d p s rs
    rcases Bool.eq_false_or_eq_true (optStrTruthy s) with hs | hs <;>
    · simp only [sentCalls, runOp, create_issue, bind_app, liftE_app, pure_app,
        hs, if_true_eq, if_false_eq, execute_query]
      repeat' (first
        | split
        | simp only [bind_app, liftE_app, pure_app, execute_query])
      all_goals (first
        | exact Nat.le.refl
        | exact Nat.zero_le _
        | exact Nat.le.step Nat.le.refl)
  · intro iid t d p s rs
    rcases Bool.eq_false_or_eq_true (optStrTruthy s) with hs | hs <;>
    · simp only [sentCalls, runOp, update_issue, bind_app, liftE_app, pure_app,
        hs, if_true_eq, if_false_eq, execute_query]
      repeat' (first
        | split
        | simp only [bind_app, liftE_app, pure_app, execute_query])
      all_goals (first
        | exact Nat.le.refl
        | exact Nat.zero_le _
        | exact Nat.le.step Nat.le.refl
        | exact Nat.le.step (Nat.le.step Nat.le.refl))
  · intro q tid stt asg lb p lim rs
    rcases Bool.eq_false_or_eq_true (optStrTruthy tid && !(strHasDash tid)) with hk | hk <;>
    · simp only [sentCalls, runOp, search_issues, bind_app, liftE_app, pure_app,
        hk, if_true_eq, if_false_eq, execute_query, tryCatchM, throwM]
      repeat' (first
        | split
        | simp only [bind_app, liftE_app, pure_app, execute_query, tryCatchM, throwM])
      all_goals (first
        | exact Nat.le.refl
        | exact Nat.zero_le _
        | exact Nat.le.step Nat.le.refl)
  · intro uid ia lim rs
    rcases Bool.eq_false_or_eq_true (optStrTruthy uid) with hu | hu <;>
    · simp only [sentCalls, runOp, get_user_issues, bind_app, liftE_app, pure_app,
        hu, if_true_eq, if_false_eq, execute_query]
      repeat' (first
        | split
        | simp only [bind_app, liftE_app, pure_app, execute_query])
      all_goals (first | exact Nat.le.refl | exact Nat.zero_le _)
  · intro iid bd cu du rs
    simp only [sentCalls, runOp, add_comment, bind_app, liftE_app, pure_app,
      execute_query]
    repeat' (first
      | split
      | simp only [bind_app, liftE_app, pure_app, execute_query])
    all_goals (first | exact Nat.le.refl | exact Nat.zero_le _)
  · intro tid rs
    simp only [sentCalls, runOp, get_team_issues, bind_app, liftE_app, pure_app,
      execute_query]
    repeat' (first
      | split
      | simp only [bind_app, liftE_app, pure_app, execute_query])
    all_goals (first | exact Nat.le.refl | exact Nat.zero_le _)
  · intro rs
    simp only [sentCalls, runOp, get_viewer, bind_app, liftE_app, pure_app,
      execute_query]
    repeat' (first
      | split
      | simp only [bind_app, liftE_app, pure_app, execute_query])
    all_goals (first | exact Nat.le.refl | exact Nat.zero_le _)
  · intro rs
    simp only [sentCalls, runOp, get_organization, bind_app, liftE_app, pure_app,
      execute_query]
    repeat' (first
      | split
      | simp only [bind_app, liftE_app, pure_app, execute_query])
    all_goals (first | exact Nat.le.refl | exact Nat.zero_le _)

/-- Claim C9: the read-only projections are not total — when the remote
binds `state`, `assignee` or `team` to an explicit null (rather than
omitting the key), `get_issue`, `list_issues` and `get_team_issues` raise
`AttributeError` during projection instead of returning a record with a
null field, because `.get` with a dict default only defends against absent
keys; with the key absent the projection succeeds with null fields. -/
theorem null_nested_fields_raise_attribute_error :
    opResult (get_issue "i1")
      [Json.obj [("data", Json.obj [("issue", Json.obj [
        ("id", Json.str "i1"), ("identifier", Json.str "T-1"),
        ("title", Json.str "t"), ("description", Json.str "d"),
        ("state", Json.null), ("url", Json.str "u")])])]] =
      Except.error (PyErr.attributeError "object has no attribute get: name") ∧
    opResult (get_issue "i1")
      [Json.obj [("data", Json.obj [("issue", Json.obj [
        ("id", Json.str "i1"), ("identifier", Json.str "T-1"),
        ("title", Json.str "t"), ("description", Json.str "d"),
        ("state", Json.obj [("name", Json.str "Todo")]),
        ("assignee", Json.null), ("url", Json.str "u")])])]] =
      Except.error (PyErr.attributeError "object has no attribute get: name") ∧
    opResult (get_issue "i1")
      [Json.obj [("data", Json.obj [("issue", Json.obj [
        ("id", Json.str "i1"), ("identifier", Json.str "T-1"),
        ("title", Json.str "t"), ("description", Json.str "d"),
        ("state", Json.obj [("name", Json.str "Todo")]),
        ("assignee", Json.obj [("name", Json.str "A")]),
        ("team", Json.null), ("url", Json.str "u")])])]] =
      Except.error (PyErr.attributeError "object has no attribute get: name") ∧
    opResult (list_issues 50)
      [Json.obj [("data", Json.obj [("issues", Json.obj [("nodes", Json.arr [
        Json.obj [("id", Json.str "i1"), ("identifier", Json.str "T-1"),
          ("title", Json.str "t"), ("state", Json.null)]])])])]] =
      Except.error (PyErr.attributeError "object has no attribute get: name") ∧
    opResult (get_team_issues "TEAM-1")
      [Json.obj [("data", Json.obj [("team", Json.obj [("issues", Json.obj [("nodes",
        Json.arr [Json.obj [("id", Json.str "i1"), ("identifier", Json.str "T-1"),
          ("title", Json.str "t"), ("state", Json.null)]])])])])]] =
      Except.error (PyErr.attributeError "object has no attribute get: name") ∧
    opResult (get_issue "i1")
      [Json.obj [("data", Json.obj [("issue", Json.obj [
        ("id", Json.str "i1"), ("identifier", Json.str "T-1"),
        ("title", Json.str "t"), ("description", Json.str "d"),
        ("url", Json.str "u")])])]] =
      Except.ok (Json.obj [("id", Json.str "i1"), ("identifier", Json.str "T-1"),
        ("title", Json.str "t"), ("description", Json.str "d"),
        ("priority", Json.null), ("status", Json.null),
        ("assignee", Json.null), ("team", Json.null), ("url", Json.str "u")]) :=
  ⟨rfl, rfl, rfl, rfl, rfl, rfl⟩

/-- Claim C10: an empty-string optional argument is treated as absent
(truthiness, not presence, gates these paths): create-issue and
update-issue with status `""` issue no state-lookup query and resolve no
state id; search-issues with empty query, team id, status, assignee id and
an empty label list sends an empty filter object with no conditions; and
add-comment with empty attribution strings omits both attribution fields
from the input. -/
theorem empty_string_arguments_treated_absent :
    (∀ (t tid : String) (r : Json),
      sentCalls (create_issue t tid none none (some "")) [r] =
        [⟨createIssueMutation, Json.obj [("input", Json.obj [
          ("title", Json.str t), ("teamId", Json.str tid),
          ("description", Json.null), ("priority", Json.null),
          ("stateId", Json.null)])]⟩]) ∧
    (∀ (iid : String) (r : Json),
      sentCalls (update_issue iid none none none (some "")) [r] =
        [⟨updateIssueMutation, Json.obj [("id", Json.str iid),
          ("input", Json.obj [])]⟩]) ∧
    sentCalls (search_issues (some "") (some "") (some "") (some "") (some []) none 10)
        [searchEmptyResp] =
      [⟨searchIssuesQuery, Json.obj [("first", Json.num 10),
        ("filter", Json.obj [])]⟩] ∧
    (∀ (iid bd : String) (r : Json),
      sentCalls (add_comment iid bd (some "") (some "")) [r] =
        [⟨createCommentMutation, Json.obj [("input", Json.obj [
          ("issueId", Json.str iid), ("body", Json.str bd)])]⟩]) :=
  ⟨fun _ _ _ => rfl, fun _ _ => rfl, rfl, fun _ _ _ => rfl⟩
